import Mathlib

/-!
Shallow embedding of `src/chat.js` (B4-art/chatapp): a single React component
that signs a user in, subscribes to a Firestore message collection, renders the
message list and appends new messages on form submission.

The component's local state (`useState` hooks plus the feed subscription handle
held by the snapshot effect) is modelled by `Chat.ChatState`.  The external
world (Firebase auth callbacks, snapshot deliveries, promise resolutions of
`addDoc`, DOM input events, unmount) is modelled by `Chat.Event`; `Chat.step`
is the component's reaction to one event, including React's rule that the
snapshot `useEffect` re-runs (cleanup, then body) exactly when one of its
dependencies `[db, user, isAuthReady]` changed.
-/

namespace Chat

/-- A Firestore document's data fields, as used by `chat.js`: `text`,
`userId` and `timestamp`.  `userId` and `timestamp` may be absent
(JavaScript `undefined`); timestamps are abstracted to `Nat`. -/
structure DocData where
  text : String
  userId : Option String
  timestamp : Option Nat
  deriving Repr, DecidableEq

/-- A document of a snapshot: `doc.id` plus `doc.data()`. -/
structure Doc where
  id : String
  data : DocData
  deriving Repr, DecidableEq

/-- A message as held in the component's `messages` state:
`{ id: doc.id, ...doc.data() }` (chat.js lines 68-71). -/
structure Message where
  id : String
  text : String
  userId : Option String
  timestamp : Option Nat
  deriving Repr, DecidableEq

/-- The mapping `doc => ({ id: doc.id, ...doc.data() })` applied to each
snapshot document (chat.js lines 68-71). -/
def mkMessage (d : Doc) : Message :=
  { id := d.id, text := d.data.text, userId := d.data.userId,
    timestamp := d.data.timestamp }

/-- JavaScript `String.prototype.trim` as called at chat.js line 89:
removes leading and trailing whitespace characters. -/
def jsTrim (s : String) : String :=
  String.mk
    ((s.data.dropWhile Char.isWhitespace).reverse.dropWhile
        Char.isWhitespace).reverse

/-- The collection path used both by the snapshot effect (line 64) and by
`handleSendMessage` (line 92): `artifacts/${appId}/public/data/messages`. -/
def messagesPath (appId : String) : String :=
  "artifacts/" ++ appId ++ "/public/data/messages"

/-- The query built at lines 64-65: the messages collection ordered by
`timestamp` ascending (`orderBy('timestamp', 'asc')`). -/
structure Query where
  path : String
  orderKey : String
  ascending : Bool
  deriving Repr, DecidableEq

/-- `query(collection(db, messagesPath), orderBy('timestamp', 'asc'))`. -/
def messagesQuery (appId : String) : Query :=
  { path := messagesPath appId, orderKey := "timestamp", ascending := true }

/-- A standing `onSnapshot` subscription held by the feed effect.  The `id`
is a freshness token: each call to `onSnapshot` yields a distinct listener,
and a delivery only reaches the component while its listener is the one
currently registered (i.e. not yet unsubscribed). -/
structure Subscription where
  id : Nat
  q : Query
  deriving Repr, DecidableEq

/-- The `timestamp` field passed to `addDoc` is the marker
`serverTimestamp()` (line 95), not a client-side value. -/
inductive TimestampField where
  | serverTimestamp
  deriving Repr, DecidableEq

/-- One `addDoc` call issued by `handleSendMessage` (lines 92-96). -/
structure AppendRequest where
  path : String
  text : String
  userId : String
  timestamp : TimestampField
  deriving Repr, DecidableEq

/-- The component's state: the `useState` hooks of `App` (chat.js lines
13-18), the subscription handle held by the snapshot effect, a counter
providing fresh subscription ids, plus the observable outputs to the two
external collaborators: `console.error` logs and issued `addDoc` requests.
`db` and `auth` record whether `setDb` / `setAuth` have delivered handles;
`user` is the current user's `uid` (`none` for a null user). -/
structure ChatState where
  messages : List Message
  newMessage : String
  user : Option String
  db : Bool
  auth : Bool
  isAuthReady : Bool
  sub : Option Subscription
  nextSubId : Nat
  logs : List String
  requests : List AppendRequest
  deriving Repr, DecidableEq

/-- Initial hook values (chat.js lines 13-18): empty list, empty draft,
null user, no handles, auth not ready, and the feed effect has not run. -/
def initState : ChatState :=
  { messages := [], newMessage := "", user := none, db := false,
    auth := false, isAuthReady := false, sub := none, nextSubId := 0,
    logs := [], requests := [] }

/-- The dependency array of the snapshot effect: `[db, user, isAuthReady]`
(chat.js line 79). -/
def deps (s : ChatState) : Bool × Option String × Bool :=
  (s.db, s.user, s.isAuthReady)

/-- One run of the snapshot effect (chat.js lines 59-79): React first runs
the previous effect's cleanup (`unsubscribe()`), then the body, which opens
a fresh `onSnapshot` subscription on the ordered query exactly when
`db && user && isAuthReady`. -/
def feedEffect (appId : String) (s : ChatState) : ChatState :=
  if s.db = true ∧ s.user ≠ none ∧ s.isAuthReady = true then
    { s with sub := some { id := s.nextSubId, q := messagesQuery appId },
             nextSubId := s.nextSubId + 1 }
  else { s with sub := none }

/-- `handleSendMessage` (chat.js lines 87-101) with the outcome of the
awaited `addDoc` promise supplied by the environment.  The guard at line 89
(`newMessage.trim() === '' || !db || !user`) silently returns; otherwise one
`addDoc` request is issued with `text = newMessage` (untrimmed),
`userId = user.uid` and the server-timestamp marker; on success the draft is
cleared (line 97), on rejection the error is logged (line 99). -/
def handleSendMessage (appId : String) (s : ChatState)
    (outcome : Except String Unit) : ChatState :=
  if jsTrim s.newMessage = "" ∨ s.db = false ∨ s.user = none then s
  else
    match s.user with
    | none => s
    | some uid =>
      let req : AppendRequest :=
        { path := messagesPath appId, text := s.newMessage, userId := uid,
          timestamp := TimestampField.serverTimestamp }
      match outcome with
      | Except.ok _ =>
          { s with requests := s.requests ++ [req], newMessage := "" }
      | Except.error msg =>
          { s with requests := s.requests ++ [req],
                   logs := s.logs ++ ["Error sending message: " ++ msg] }

/-- The events the component reacts to:
* `init`: the mount effect (lines 22-56); on success `setDb`/`setAuth`
  deliver handles, on failure only `console.error` at line 54 runs;
* `authError`: the `catch` inside `signIn` (lines 39-41);
* `authStateChanged`: the `onAuthStateChanged` callback (lines 45-48);
* `snapshotDelivered` / `snapshotError`: the two `onSnapshot` callbacks
  (lines 67-75), tagged with the listener they were registered on;
* `setDraft`: the input's `onChange` (line 158);
* `submit`: form submission running `handleSendMessage`;
* `unmount`: component teardown running the effect cleanup (line 77). -/
inductive Event where
  | init (outcome : Except String Unit)
  | authError (msg : String)
  | authStateChanged (u : Option String)
  | snapshotDelivered (listener : Nat) (docs : List Doc)
  | snapshotError (listener : Nat) (msg : String)
  | setDraft (text : String)
  | submit (outcome : Except String Unit)
  | unmount
  deriving Repr

/-- The direct effect of one event on the hook state, before React
reconciles the snapshot effect. -/
def rawStep (appId : String) (s : ChatState) (e : Event) : ChatState :=
  match e with
  | Event.init (Except.ok _) => { s with db := true, auth := true }
  | Event.init (Except.error msg) =>
      { s with logs := s.logs ++ ["Failed to initialize Firebase: " ++ msg] }
  | Event.authError msg =>
      { s with logs := s.logs ++ ["Firebase authentication error: " ++ msg] }
  | Event.authStateChanged u => { s with user := u, isAuthReady := true }
  | Event.snapshotDelivered listener docs =>
      match s.sub with
      | some sb =>
          if sb.id = listener then
            { s with messages := docs.map mkMessage }
          else s
      | none => s
  | Event.snapshotError listener msg =>
      match s.sub with
      | some sb =>
          if sb.id = listener then
            { s with logs := s.logs ++ ["Error fetching messages: " ++ msg] }
          else s
      | none => s
  | Event.setDraft text => { s with newMessage := text }
  | Event.submit outcome => handleSendMessage appId s outcome
  | Event.unmount => { s with sub := none }

/-- One reaction of the component: the event's direct effect, followed by a
re-run of the snapshot effect exactly when one of its dependencies
`[db, user, isAuthReady]` changed (chat.js line 79). -/
def step (appId : String) (s : ChatState) (e : Event) : ChatState :=
  let s' := rawStep appId s e
  if deps s' = deps s then s' else feedEffect appId s'

/-- A whole event trace. -/
def run (appId : String) (s : ChatState) (evts : List Event) : ChatState :=
  evts.foldl (step appId) s

/-- States reachable from the initial hook values. -/
def reachable (appId : String) (s : ChatState) : Prop :=
  ∃ evts, s = run appId initState evts

/-- JavaScript strict equality `===` on two values that are each either a
string or `undefined`, as in `msg.userId === user?.uid` (lines 132, 136,
143): two strings compare by value, `undefined === undefined` is `true`,
and a string never equals `undefined`. -/
def jsEq (a b : Option String) : Bool :=
  match a, b with
  | some x, some y => x == y
  | none, none => true
  | _, _ => false

/-- Message bubble alignment: `justify-end` (right) vs `justify-start`
(left), chat.js line 132. -/
inductive Align where
  | left
  | right
  deriving Repr, DecidableEq

/-- The `TypeError` thrown by `msg.userId.substring(0, 8)` when
`msg.userId` is `undefined` (line 143). -/
def substrUndefErr : String :=
  "TypeError: cannot read substring of undefined"

/-- The rendering of one message bubble (chat.js lines 129-148): its
alignment, its sender label (`Except` models a thrown `TypeError`), and
the timestamp shown in the time suffix, `none` when
`msg.timestamp` is absent and the suffix is omitted (line 144). -/
structure RenderedMsg where
  align : Align
  name : Except String String
  timeShown : Option Nat
  deriving Repr

/-- Rendering of one message for the viewer whose uid is `uid` (`none`
for a null `user`, where `user?.uid` is `undefined`):
alignment by `msg.userId === user?.uid` (line 132), label `'You'` for self
and `` `User: ${msg.userId.substring(0, 8)}...` `` otherwise (line 143),
and the conditional time suffix (line 144). -/
def renderMsg (uid : Option String) (m : Message) : RenderedMsg :=
  { align := if jsEq m.userId uid then Align.right else Align.left
  , name :=
      if jsEq m.userId uid then Except.ok "You"
      else
        match m.userId with
        | some u => Except.ok ("User: " ++ u.take 8 ++ "...")
        | none => Except.error substrUndefErr
  , timeShown := m.timestamp }

/-- The message display area: the placeholder paragraph when
`messages.length === 0`, otherwise one bubble per message (lines 126-149). -/
inductive RenderedList where
  | placeholder (text : String)
  | items (msgs : List RenderedMsg)
  deriving Repr

/-- The empty-list placeholder text (chat.js line 127). -/
def emptyPlaceholder : String := "No messages yet. Start chatting!"

/-- The message display area rendered for viewer `uid` over the current
`messages` state (chat.js lines 126-149). -/
def renderMessages (uid : Option String) (msgs : List Message) : RenderedList :=
  if msgs.length = 0 then RenderedList.placeholder emptyPlaceholder
  else RenderedList.items (msgs.map (renderMsg uid))

/-- The early-return loading branch: `if (!isAuthReady)` the component
renders only the `Loading chat...` screen (chat.js lines 104-110). -/
def rendersLoading (s : ChatState) : Bool :=
  !s.isAuthReady

/-- A concrete reachable state used to exercise the theorems: mount
succeeded, user `u1` signed in (opening feed subscription 0), and the
draft `hello` has been typed. -/
def wState : ChatState :=
  run "w-app" initState
    [Event.init (Except.ok ()), Event.authStateChanged (some "u1"),
     Event.setDraft "hello"]

/-- `wState` with a whitespace-only draft. -/
def wsState : ChatState :=
  { wState with newMessage := "   " }

/-- The subscription open in `wState`. -/
def subW : Subscription :=
  { id := 0, q := messagesQuery "w-app" }

/-- A message whose `userId` field is absent (`undefined`). -/
def mU : Message :=
  { id := "m1", text := "hi", userId := none, timestamp := none }

/-! ### Basic lemmas about the step function -/

theorem handleSendMessage_deps (appId : String) (s : ChatState)
    (o : Except String Unit) :
    deps (handleSendMessage appId s o) = deps s := by
  unfold handleSendMessage
  split
  · rfl
  · cases h : s.user with
    | none => rfl
    | some uid => cases o <;> simp [deps, h]

theorem handleSendMessage_sub (appId : String) (s : ChatState)
    (o : Except String Unit) :
    (handleSendMessage appId s o).sub = s.sub := by
  unfold handleSendMessage
  split
  · rfl
  · cases s.user <;> cases o <;> rfl

theorem handleSendMessage_messages (appId : String) (s : ChatState)
    (o : Except String Unit) :
    (handleSendMessage appId s o).messages = s.messages := by
  unfold handleSendMessage
  split
  · rfl
  · cases s.user <;> cases o <;> rfl

theorem handleSendMessage_nextSubId (appId : String) (s : ChatState)
    (o : Except String Unit) :
    (handleSendMessage appId s o).nextSubId = s.nextSubId := by
  unfold handleSendMessage
  split
  · rfl
  · cases s.user <;> cases o <;> rfl

theorem step_of_deps_eq (appId : String) (s : ChatState) (e : Event)
    (h : deps (rawStep appId s e) = deps s) :
    step appId s e = rawStep appId s e := by
  simp [step, h]

theorem step_submit (appId : String) (s : ChatState) (o : Except String Unit) :
    step appId s (Event.submit o) = handleSendMessage appId s o :=
  step_of_deps_eq appId s (Event.submit o) (handleSendMessage_deps appId s o)

theorem step_setDraft (appId : String) (s : ChatState) (t : String) :
    step appId s (Event.setDraft t) = { s with newMessage := t } :=
  step_of_deps_eq appId s (Event.setDraft t) rfl

theorem step_unmount (appId : String) (s : ChatState) :
    step appId s Event.unmount = { s with sub := none } :=
  step_of_deps_eq appId s Event.unmount rfl

theorem step_authError (appId : String) (s : ChatState) (msg : String) :
    step appId s (Event.authError msg) =
      { s with logs := s.logs ++ ["Firebase authentication error: " ++ msg] } :=
  step_of_deps_eq appId s (Event.authError msg) rfl

theorem step_initError (appId : String) (s : ChatState) (msg : String) :
    step appId s (Event.init (Except.error msg)) =
      { s with logs := s.logs ++ ["Failed to initialize Firebase: " ++ msg] } :=
  step_of_deps_eq appId s (Event.init (Except.error msg)) rfl

theorem rawStep_snapshotDelivered_deps (appId : String) (s : ChatState)
    (i : Nat) (docs : List Doc) :
    deps (rawStep appId s (Event.snapshotDelivered i docs)) = deps s := by
  unfold rawStep
  cases s.sub with
  | none => rfl
  | some sb =>
    by_cases h : sb.id = i <;> simp [h, deps]

theorem rawStep_snapshotError_deps (appId : String) (s : ChatState)
    (i : Nat) (msg : String) :
    deps (rawStep appId s (Event.snapshotError i msg)) = deps s := by
  unfold rawStep
  cases s.sub with
  | none => rfl
  | some sb =>
    by_cases h : sb.id = i <;> simp [h, deps]

theorem step_snapshotDelivered (appId : String) (s : ChatState)
    (i : Nat) (docs : List Doc) :
    step appId s (Event.snapshotDelivered i docs) =
      rawStep appId s (Event.snapshotDelivered i docs) :=
  step_of_deps_eq appId s _ (rawStep_snapshotDelivered_deps appId s i docs)

theorem step_snapshotError (appId : String) (s : ChatState)
    (i : Nat) (msg : String) :
    step appId s (Event.snapshotError i msg) =
      rawStep appId s (Event.snapshotError i msg) :=
  step_of_deps_eq appId s _ (rawStep_snapshotError_deps appId s i msg)

theorem step_snapshotDelivered_active (appId : String) (s : ChatState)
    (sb : Subscription) (docs : List Doc) (h : s.sub = some sb) :
    step appId s (Event.snapshotDelivered sb.id docs) =
      { s with messages := docs.map mkMessage } := by
  rw [step_snapshotDelivered]
  unfold rawStep
  rw [h]
  simp

theorem step_snapshotDelivered_inactive (appId : String) (s : ChatState)
    (i : Nat) (docs : List Doc) (h : s.sub = none) :
    step appId s (Event.snapshotDelivered i docs) = s := by
  rw [step_snapshotDelivered]
  unfold rawStep
  rw [h]

theorem step_snapshotDelivered_sub (appId : String) (s : ChatState)
    (i : Nat) (docs : List Doc) :
    (step appId s (Event.snapshotDelivered i docs)).sub = s.sub := by
  rw [step_snapshotDelivered]
  unfold rawStep
  cases h : s.sub with
  | none => exact h
  | some sb =>
    by_cases h2 : sb.id = i
    · simp [h2]
    · simp [h2, h]

/-! ### Lemmas about the feed effect -/

theorem feedEffect_sub (appId : String) (s : ChatState) :
    (feedEffect appId s).sub =
      (if s.db = true ∧ s.user ≠ none ∧ s.isAuthReady = true then
        some { id := s.nextSubId, q := messagesQuery appId } else none) := by
  unfold feedEffect
  split <;> rfl

theorem feedEffect_deps (appId : String) (s : ChatState) :
    deps (feedEffect appId s) = deps s := by
  unfold feedEffect
  split <;> rfl

theorem feedEffect_isAuthReady (appId : String) (s : ChatState) :
    (feedEffect appId s).isAuthReady = s.isAuthReady := by
  unfold feedEffect
  split <;> rfl

theorem feedEffect_messages (appId : String) (s : ChatState) :
    (feedEffect appId s).messages = s.messages := by
  unfold feedEffect
  split <;> rfl

theorem feedEffect_nextSubId_le (appId : String) (s : ChatState) :
    s.nextSubId ≤ (feedEffect appId s).nextSubId := by
  unfold feedEffect
  split
  · exact Nat.le_succ _
  · exact Nat.le_refl _

/-- The snapshot effect re-runs on an auth-state callback exactly when the
user or readiness actually changed. -/
theorem step_authStateChanged (appId : String) (s : ChatState)
    (u : Option String) :
    step appId s (Event.authStateChanged u) =
      (if s.user = u ∧ s.isAuthReady = true then
        { s with user := u, isAuthReady := true }
      else feedEffect appId { s with user := u, isAuthReady := true }) := by
  unfold step rawStep
  by_cases h : s.user = u ∧ s.isAuthReady = true
  · have hd : deps { s with user := u, isAuthReady := true } = deps s := by
      simp [deps, Prod.ext_iff, h.1, h.2]
    rw [if_pos hd, if_pos h]
  · have hd : deps { s with user := u, isAuthReady := true } ≠ deps s := by
      simp only [deps, Prod.mk.injEq, true_and, ne_eq, not_and]
      intro h1 h2
      exact h ⟨h1.symm, h2.symm⟩
    rw [if_neg hd, if_neg h]

theorem step_of_deps_ne (appId : String) (s : ChatState) (e : Event)
    (h : deps (rawStep appId s e) ≠ deps s) :
    step appId s e = feedEffect appId (rawStep appId s e) := by
  simp [step, h]

theorem deps_eq_db {s1 s2 : ChatState} (h : deps s1 = deps s2) :
    s1.db = s2.db :=
  congrArg Prod.fst h

theorem deps_eq_user {s1 s2 : ChatState} (h : deps s1 = deps s2) :
    s1.user = s2.user :=
  congrArg (fun p => p.2.1) h

theorem deps_eq_isAuthReady {s1 s2 : ChatState} (h : deps s1 = deps s2) :
    s1.isAuthReady = s2.isAuthReady :=
  congrArg (fun p => p.2.2) h

/-! ### Snapshot-error step lemmas -/

theorem step_snapshotError_active (appId : String) (s : ChatState)
    (sb : Subscription) (msg : String) (h : s.sub = some sb) :
    step appId s (Event.snapshotError sb.id msg) =
      { s with logs := s.logs ++ ["Error fetching messages: " ++ msg] } := by
  rw [step_snapshotError]
  unfold rawStep
  rw [h]
  simp

theorem step_snapshotError_inactive (appId : String) (s : ChatState)
    (i : Nat) (msg : String) (h : s.sub = none) :
    step appId s (Event.snapshotError i msg) = s := by
  rw [step_snapshotError]
  unfold rawStep
  rw [h]

theorem step_snapshotError_messages (appId : String) (s : ChatState)
    (i : Nat) (msg : String) :
    (step appId s (Event.snapshotError i msg)).messages = s.messages := by
  rw [step_snapshotError]
  unfold rawStep
  cases h : s.sub with
  | none => rfl
  | some sb =>
    by_cases h2 : sb.id = i
    · simp [h2]
    · simp [h2]

theorem step_snapshotError_sub (appId : String) (s : ChatState)
    (i : Nat) (msg : String) :
    (step appId s (Event.snapshotError i msg)).sub = s.sub := by
  rw [step_snapshotError]
  unfold rawStep
  cases h : s.sub with
  | none => exact h
  | some sb =>
    by_cases h2 : sb.id = i
    · simp [h2]
    · simp [h2, h]

/-! ### Field-preservation lemmas for rawStep -/

theorem rawStep_sub_or (appId : String) (s : ChatState) (e : Event) :
    (rawStep appId s e).sub = s.sub ∨ (rawStep appId s e).sub = none := by
  cases e with
  | init o => cases o <;> exact Or.inl rfl
  | authError m => exact Or.inl rfl
  | authStateChanged u => exact Or.inl rfl
  | snapshotDelivered i docs =>
    exact Or.inl (by
      rw [← step_snapshotDelivered]
      exact step_snapshotDelivered_sub appId s i docs)
  | snapshotError i m =>
    exact Or.inl (by
      rw [← step_snapshotError]
      exact step_snapshotError_sub appId s i m)
  | setDraft t => exact Or.inl rfl
  | submit o => exact Or.inl (handleSendMessage_sub appId s o)
  | unmount => exact Or.inr rfl

theorem rawStep_nextSubId (appId : String) (s : ChatState) (e : Event) :
    (rawStep appId s e).nextSubId = s.nextSubId := by
  cases e with
  | init o => cases o <;> rfl
  | authError m => rfl
  | authStateChanged u => rfl
  | snapshotDelivered i docs =>
    unfold rawStep
    cases h : s.sub with
    | none => rfl
    | some sb => by_cases h2 : sb.id = i <;> simp [h2]
  | snapshotError i m =>
    unfold rawStep
    cases h : s.sub with
    | none => rfl
    | some sb => by_cases h2 : sb.id = i <;> simp [h2]
  | setDraft t => rfl
  | submit o => exact handleSendMessage_nextSubId appId s o
  | unmount => rfl

theorem step_nextSubId_le (appId : String) (s : ChatState) (e : Event) :
    s.nextSubId ≤ (step appId s e).nextSubId := by
  by_cases hd : deps (rawStep appId s e) = deps s
  · rw [step_of_deps_eq appId s e hd, rawStep_nextSubId]
  · rw [step_of_deps_ne appId s e hd]
    exact le_trans (Nat.le_of_eq (rawStep_nextSubId appId s e).symm)
      (feedEffect_nextSubId_le appId _)

/-! ### Runs -/

theorem run_nil (appId : String) (s : ChatState) : run appId s [] = s := rfl

theorem run_cons (appId : String) (s : ChatState) (e : Event)
    (evts : List Event) :
    run appId s (e :: evts) = run appId (step appId s e) evts := rfl

theorem run_nextSubId_le (appId : String) (s : ChatState)
    (evts : List Event) :
    s.nextSubId ≤ (run appId s evts).nextSubId := by
  induction evts generalizing s with
  | nil => exact Nat.le_refl _
  | cons e evts ih =>
    exact le_trans (step_nextSubId_le appId s e) (ih (step appId s e))

/-! ### The subscription invariants -/

/-- An open feed subscription implies that a database handle, a non-null
user and auth readiness are all present. -/
def SubInv (s : ChatState) : Prop :=
  ∀ sb, s.sub = some sb → s.db = true ∧ s.user ≠ none ∧ s.isAuthReady = true

/-- Every subscription ever opened has an id below the freshness counter. -/
def SubIdInv (s : ChatState) : Prop :=
  ∀ sb, s.sub = some sb → sb.id < s.nextSubId

theorem subInv_feedEffect (appId : String) (s : ChatState) :
    SubInv (feedEffect appId s) := by
  unfold SubInv feedEffect
  by_cases h : s.db = true ∧ s.user ≠ none ∧ s.isAuthReady = true
  · rw [if_pos h]
    exact fun sb _ => h
  · rw [if_neg h]
    intro sb hsb
    simp at hsb

theorem subIdInv_feedEffect (appId : String) (s : ChatState) :
    SubIdInv (feedEffect appId s) := by
  unfold SubIdInv feedEffect
  by_cases h : s.db = true ∧ s.user ≠ none ∧ s.isAuthReady = true
  · rw [if_pos h]
    intro sb hsb
    have hsb2 : sb = { id := s.nextSubId, q := messagesQuery appId } := by
      simpa using hsb.symm
    rw [hsb2]
    exact Nat.lt_succ_self _
  · rw [if_neg h]
    intro sb hsb
    simp at hsb

theorem subInv_step (appId : String) (s : ChatState) (e : Event)
    (h : SubInv s) : SubInv (step appId s e) := by
  by_cases hd : deps (rawStep appId s e) = deps s
  · rw [step_of_deps_eq appId s e hd]
    intro sb hsb
    rcases rawStep_sub_or appId s e with h1 | h1
    · have hx := h sb (h1 ▸ hsb)
      exact ⟨(deps_eq_db hd).trans hx.1,
        by rw [deps_eq_user hd]; exact hx.2.1,
        (deps_eq_isAuthReady hd).trans hx.2.2⟩
    · rw [h1] at hsb
      simp at hsb
  · rw [step_of_deps_ne appId s e hd]
    exact subInv_feedEffect appId _

theorem subIdInv_step (appId : String) (s : ChatState) (e : Event)
    (h : SubIdInv s) : SubIdInv (step appId s e) := by
  by_cases hd : deps (rawStep appId s e) = deps s
  · rw [step_of_deps_eq appId s e hd]
    intro sb hsb
    rcases rawStep_sub_or appId s e with h1 | h1
    · rw [rawStep_nextSubId]
      exact h sb (h1 ▸ hsb)
    · rw [h1] at hsb
      simp at hsb
  · rw [step_of_deps_ne appId s e hd]
    exact subIdInv_feedEffect appId _

theorem subInv_run (appId : String) (s : ChatState) (evts : List Event)
    (h : SubInv s) : SubInv (run appId s evts) := by
  induction evts generalizing s with
  | nil => exact h
  | cons e evts ih => exact ih (step appId s e) (subInv_step appId s e h)

theorem subIdInv_run (appId : String) (s : ChatState) (evts : List Event)
    (h : SubIdInv s) : SubIdInv (run appId s evts) := by
  induction evts generalizing s with
  | nil => exact h
  | cons e evts ih => exact ih (step appId s e) (subIdInv_step appId s e h)

theorem subInv_initState : SubInv initState := by
  intro sb hsb
  simp [initState] at hsb

theorem subIdInv_initState : SubIdInv initState := by
  intro sb hsb
  simp [initState] at hsb

theorem subInv_reachable (appId : String) (s : ChatState)
    (h : reachable appId s) : SubInv s := by
  rcases h with ⟨evts, rfl⟩
  exact subInv_run appId initState evts subInv_initState

theorem subIdInv_reachable (appId : String) (s : ChatState)
    (h : reachable appId s) : SubIdInv s := by
  rcases h with ⟨evts, rfl⟩
  exact subIdInv_run appId initState evts subIdInv_initState

/-! ### Auth-readiness lemmas -/

theorem step_isAuthReady_eq_rawStep (appId : String) (s : ChatState)
    (e : Event) :
    (step appId s e).isAuthReady = (rawStep appId s e).isAuthReady := by
  by_cases hd : deps (rawStep appId s e) = deps s
  · rw [step_of_deps_eq appId s e hd]
  · rw [step_of_deps_ne appId s e hd, feedEffect_isAuthReady]

theorem rawStep_isAuthReady_of_not_auth (appId : String) (s : ChatState)
    (e : Event) (h : ∀ u, e ≠ Event.authStateChanged u) :
    (rawStep appId s e).isAuthReady = s.isAuthReady := by
  cases e with
  | init o => cases o <;> rfl
  | authError m => rfl
  | authStateChanged u => exact absurd rfl (h u)
  | snapshotDelivered i docs =>
    unfold rawStep
    cases hs : s.sub with
    | none => rfl
    | some sb => by_cases h2 : sb.id = i <;> simp [h2]
  | snapshotError i m =>
    unfold rawStep
    cases hs : s.sub with
    | none => rfl
    | some sb => by_cases h2 : sb.id = i <;> simp [h2]
  | setDraft t => rfl
  | submit o =>
    exact deps_eq_isAuthReady (handleSendMessage_deps appId s o)
  | unmount => rfl

theorem rawStep_isAuthReady_auth (appId : String) (s : ChatState)
    (u : Option String) :
    (rawStep appId s (Event.authStateChanged u)).isAuthReady = true := rfl

theorem step_isAuthReady_auth (appId : String) (s : ChatState)
    (u : Option String) :
    (step appId s (Event.authStateChanged u)).isAuthReady = true := by
  rw [step_isAuthReady_eq_rawStep]
  rfl

theorem step_isAuthReady_mono (appId : String) (s : ChatState) (e : Event)
    (h : s.isAuthReady = true) : (step appId s e).isAuthReady = true := by
  rw [step_isAuthReady_eq_rawStep]
  cases e with
  | authStateChanged u => rfl
  | init o =>
    rw [rawStep_isAuthReady_of_not_auth appId s _ (by intro u hu; cases hu)]
    exact h
  | authError m =>
    rw [rawStep_isAuthReady_of_not_auth appId s _ (by intro u hu; cases hu)]
    exact h
  | snapshotDelivered i docs =>
    rw [rawStep_isAuthReady_of_not_auth appId s _ (by intro u hu; cases hu)]
    exact h
  | snapshotError i m =>
    rw [rawStep_isAuthReady_of_not_auth appId s _ (by intro u hu; cases hu)]
    exact h
  | setDraft t =>
    rw [rawStep_isAuthReady_of_not_auth appId s _ (by intro u hu; cases hu)]
    exact h
  | submit o =>
    rw [rawStep_isAuthReady_of_not_auth appId s _ (by intro u hu; cases hu)]
    exact h
  | unmount =>
    rw [rawStep_isAuthReady_of_not_auth appId s _ (by intro u hu; cases hu)]
    exact h

theorem run_isAuthReady_mono (appId : String) (s : ChatState)
    (evts : List Event) (h : s.isAuthReady = true) :
    (run appId s evts).isAuthReady = true := by
  induction evts generalizing s with
  | nil => exact h
  | cons e evts ih =>
    exact ih (step appId s e) (step_isAuthReady_mono appId s e h)

theorem run_isAuthReady_of_no_auth (appId : String) (s : ChatState)
    (evts : List Event) (h : ∀ u, Event.authStateChanged u ∉ evts) :
    (run appId s evts).isAuthReady = s.isAuthReady := by
  induction evts generalizing s with
  | nil => rfl
  | cons e evts ih =>
    have he : ∀ u, e ≠ Event.authStateChanged u := by
      intro u hu
      exact h u (by rw [← hu]; exact List.mem_cons_self e evts)
    have ht : ∀ u, Event.authStateChanged u ∉ evts := by
      intro u hu
      exact h u (List.mem_cons_of_mem e hu)
    rw [run_cons, ih (step appId s e) ht, step_isAuthReady_eq_rawStep,
      rawStep_isAuthReady_of_not_auth appId s e he]

/-! ### handleSendMessage equations -/

theorem handleSendMessage_guard (appId : String) (s : ChatState)
    (o : Except String Unit)
    (h : jsTrim s.newMessage = "" ∨ s.db = false ∨ s.user = none) :
    handleSendMessage appId s o = s := by
  unfold handleSendMessage
  rw [if_pos h]

theorem handleSendMessage_ok (appId : String) (s : ChatState) (uid : String)
    (h1 : jsTrim s.newMessage ≠ "") (h2 : s.db = true)
    (h3 : s.user = some uid) :
    handleSendMessage appId s (Except.ok ()) =
      { s with
          requests := s.requests ++
            [{ path := messagesPath appId, text := s.newMessage,
               userId := uid, timestamp := TimestampField.serverTimestamp }],
          newMessage := "" } := by
  unfold handleSendMessage
  rw [if_neg (by simp [h1, h2, h3]), h3]

theorem handleSendMessage_error (appId : String) (s : ChatState)
    (uid : String) (msg : String)
    (h1 : jsTrim s.newMessage ≠ "") (h2 : s.db = true)
    (h3 : s.user = some uid) :
    handleSendMessage appId s (Except.error msg) =
      { s with
          requests := s.requests ++
            [{ path := messagesPath appId, text := s.newMessage,
               userId := uid, timestamp := TimestampField.serverTimestamp }],
          logs := s.logs ++ ["Error sending message: " ++ msg] } := by
  unfold handleSendMessage
  rw [if_neg (by simp [h1, h2, h3]), h3]

/-! ### Delivery-run lemmas -/

theorem run_deliver_last (appId : String) (s : ChatState) (sb : Subscription)
    (h : s.sub = some sb) (dss : List (List Doc)) (ds : List Doc) :
    (run appId s ((dss ++ [ds]).map (Event.snapshotDelivered sb.id))).messages
      = ds.map mkMessage := by
  induction dss generalizing s with
  | nil =>
    rw [List.nil_append, List.map_cons, List.map_nil, run_cons, run_nil,
      step_snapshotDelivered_active appId s sb ds h]
  | cons d dss ih =>
    have h2 : (step appId s (Event.snapshotDelivered sb.id d)).sub = some sb := by
      rw [step_snapshotDelivered_sub]
      exact h
    rw [List.cons_append, List.map_cons, run_cons]
    exact ih _ h2

theorem run_deliveries_noop (appId : String) (s : ChatState)
    (h : s.sub = none) (ds : List (Nat × List Doc)) :
    run appId s (ds.map fun p => Event.snapshotDelivered p.1 p.2) = s := by
  induction ds with
  | nil => rfl
  | cons p ps ih =>
    rw [List.map_cons, run_cons,
      step_snapshotDelivered_inactive appId s p.1 p.2 h]
    exact ih

/-! ### Render lemmas -/

theorem renderMsg_timeShown (uid : Option String) (m : Message) :
    (renderMsg uid m).timeShown = m.timestamp := rfl

theorem renderMsg_self (uid : String) (m : Message) (h : m.userId = some uid) :
    renderMsg (some uid) m =
      { align := Align.right, name := Except.ok "You",
        timeShown := m.timestamp } := by
  unfold renderMsg
  rw [h]
  simp [jsEq]

theorem renderMsg_other (uid sid : String) (m : Message)
    (h : m.userId = some sid) (h2 : sid ≠ uid) :
    renderMsg (some uid) m =
      { align := Align.left,
        name := Except.ok ("User: " ++ sid.take 8 ++ "..."),
        timeShown := m.timestamp } := by
  have hb : (sid == uid) = false := beq_eq_false_iff_ne.mpr h2
  unfold renderMsg
  rw [h]
  simp [jsEq, hb]

theorem renderMsg_undef_viewer_some (uid : String) (m : Message)
    (h : m.userId = none) :
    renderMsg (some uid) m =
      { align := Align.left, name := Except.error substrUndefErr,
        timeShown := m.timestamp } := by
  unfold renderMsg
  rw [h]
  simp [jsEq]

theorem renderMsg_undef_viewer_none (m : Message) (h : m.userId = none) :
    renderMsg none m =
      { align := Align.right, name := Except.ok "You",
        timeShown := m.timestamp } := by
  unfold renderMsg
  rw [h]
  simp [jsEq]

/-! ## Claim theorems -/

/-- **C1**: for every draft whose trimmed form is non-empty, when a database
handle and a signed-in identity are available, submitting appends exactly
one request to `artifacts/{app-id}/public/data/messages` whose `text` is the
draft exactly (untrimmed), whose sender id is the current uid, and whose
timestamp field is the server-assigned-timestamp marker; on successful
acknowledgment the draft becomes the empty string (and nothing else in the
local state changes). -/
theorem submit_valid_appends_one_and_clears_draft :
    (∀ appId, messagesPath appId =
        "artifacts/" ++ appId ++ "/public/data/messages")
  ∧ (∀ appId s uid, jsTrim s.newMessage ≠ "" → s.db = true →
      s.user = some uid →
      step appId s (Event.submit (Except.ok ())) =
        { s with
            requests := s.requests ++
              [{ path := messagesPath appId, text := s.newMessage,
                 userId := uid, timestamp := TimestampField.serverTimestamp }],
            newMessage := "" }) :=
  ⟨fun _ => rfl, fun appId s uid h1 h2 h3 => by
    rw [step_submit, handleSendMessage_ok appId s uid h1 h2 h3]⟩

/-- Witness for C1 at the concrete state `wState` (draft `"hello"`,
user `u1`, database handle present). -/
theorem submit_valid_appends_one_and_clears_draft_witness :
    jsTrim wState.newMessage ≠ "" ∧ wState.db = true ∧
    wState.user = some "u1" ∧
    step "w-app" wState (Event.submit (Except.ok ())) =
      { wState with
          requests := wState.requests ++
            [{ path := messagesPath "w-app", text := wState.newMessage,
               userId := "u1", timestamp := TimestampField.serverTimestamp }],
          newMessage := "" } :=
  ⟨by decide, by decide, by decide,
    submit_valid_appends_one_and_clears_draft.2 "w-app" wState "u1"
      (by decide) (by decide) (by decide)⟩

/-- **C3**: submitting when the trimmed draft is empty, or the database
handle or identity is unavailable, is a silent no-op: the state (draft
included) is unchanged and no append request is issued, whatever the
would-be outcome. -/
theorem submit_invalid_silent_noop :
    ∀ appId s o,
      (jsTrim s.newMessage = "" ∨ s.db = false ∨ s.user = none) →
      step appId s (Event.submit o) = s :=
  fun appId s o h => by
    rw [step_submit, handleSendMessage_guard appId s o h]

/-- Witness for C3 at the whitespace-draft state `wsState`. -/
theorem submit_invalid_silent_noop_witness :
    (jsTrim wsState.newMessage = "" ∨ wsState.db = false ∨
      wsState.user = none) ∧
    step "w-app" wsState (Event.submit (Except.ok ())) = wsState :=
  ⟨Or.inl (by decide),
    submit_invalid_silent_noop "w-app" wsState (Except.ok ())
      (Or.inl (by decide))⟩

/-- **C4**: if the append promise rejects, the error is logged and nothing
else changes: the draft is intact, the message list is untouched, and
exactly the one failed request was issued (no retry). -/
theorem submit_failure_logs_and_keeps_draft :
    ∀ appId s uid msg, jsTrim s.newMessage ≠ "" → s.db = true →
      s.user = some uid →
      step appId s (Event.submit (Except.error msg)) =
        { s with
            requests := s.requests ++
              [{ path := messagesPath appId, text := s.newMessage,
                 userId := uid, timestamp := TimestampField.serverTimestamp }],
            logs := s.logs ++ ["Error sending message: " ++ msg] }
      ∧ (step appId s (Event.submit (Except.error msg))).newMessage
          = s.newMessage
      ∧ (step appId s (Event.submit (Except.error msg))).messages
          = s.messages := by
  intro appId s uid msg h1 h2 h3
  have heq : step appId s (Event.submit (Except.error msg)) =
      { s with
          requests := s.requests ++
            [{ path := messagesPath appId, text := s.newMessage,
               userId := uid, timestamp := TimestampField.serverTimestamp }],
          logs := s.logs ++ ["Error sending message: " ++ msg] } := by
    rw [step_submit, handleSendMessage_error appId s uid msg h1 h2 h3]
  exact ⟨heq, by rw [heq], by rw [heq]⟩

/-- Witness for C4: append of draft `"hello"` rejects with a permission
error at `wState`; the draft and list are unchanged. -/
theorem submit_failure_logs_and_keeps_draft_witness :
    jsTrim wState.newMessage ≠ "" ∧ wState.db = true ∧
    wState.user = some "u1" ∧
    (step "w-app" wState
        (Event.submit (Except.error "permission-denied"))).newMessage
      = wState.newMessage ∧
    (step "w-app" wState
        (Event.submit (Except.error "permission-denied"))).messages
      = wState.messages :=
  ⟨by decide, by decide, by decide,
    (submit_failure_logs_and_keeps_draft "w-app" wState "u1"
      "permission-denied" (by decide) (by decide) (by decide)).2.1,
    (submit_failure_logs_and_keeps_draft "w-app" wState "u1"
      "permission-denied" (by decide) (by decide) (by decide)).2.2⟩

/-- **C2**: the subscription requests the collection ordered ascending by
`timestamp`; on each delivery to the current listener the local list is
replaced by the delivered snapshot mapped to (id plus document fields); over
any nonempty sequence of deliveries the list equals the most recent
snapshot; and the mapping neither sorts, filters nor deduplicates: it is
index-by-index. -/
theorem feed_list_equals_last_snapshot :
    (∀ appId, messagesQuery appId =
        { path := messagesPath appId, orderKey := "timestamp",
          ascending := true })
  ∧ (∀ appId s sb, (feedEffect appId s).sub = some sb →
      sb.q = messagesQuery appId)
  ∧ (∀ appId s sb ds, s.sub = some sb →
      (step appId s (Event.snapshotDelivered sb.id ds)).messages
        = ds.map mkMessage)
  ∧ (∀ appId s sb dss ds, s.sub = some sb →
      (run appId s
          ((dss ++ [ds]).map (Event.snapshotDelivered sb.id))).messages
        = ds.map mkMessage)
  ∧ (∀ ds : List Doc, (ds.map mkMessage).length = ds.length)
  ∧ (∀ (ds : List Doc) (i : Nat),
      (ds.map mkMessage)[i]? = (ds[i]?).map mkMessage) := by
  refine ⟨fun _ => rfl, ?_, ?_, ?_, fun ds => ds.length_map mkMessage,
    fun ds i => (List.getElem?_map mkMessage ds i)⟩
  · intro appId s sb h
    rw [feedEffect_sub] at h
    split at h
    · injection h with h2
      rw [← h2]
    · exact Option.noConfusion h
  · intro appId s sb ds h
    rw [step_snapshotDelivered_active appId s sb ds h]
  · intro appId s sb dss ds h
    exact run_deliver_last appId s sb h dss ds

/-- Witness for C2 at `wState`: one delivery of a two-document snapshot on
the open listener replaces the list by its mapped form. -/
theorem feed_list_equals_last_snapshot_witness :
    wState.sub = some subW ∧
    (step "w-app" wState (Event.snapshotDelivered subW.id
        [⟨"m1", ⟨"hello", some "u1", some 5⟩⟩,
         ⟨"m2", ⟨"hi", some "u2", some 6⟩⟩])).messages
      = [⟨"m1", "hello", some "u1", some 5⟩,
         ⟨"m2", "hi", some "u2", some 6⟩] :=
  ⟨by decide,
    (feed_list_equals_last_snapshot.2.2.1 "w-app" wState subW
      [⟨"m1", ⟨"hello", some "u1", some 5⟩⟩,
       ⟨"m2", ⟨"hi", some "u2", some 6⟩⟩] (by decide))⟩

/-- **C5**: the feed subscription is open only when a database handle, a
non-null identity and auth readiness are all present (in particular never
while the identity is null); the effect activates exactly when all three
hold; an auth callback with a null user closes the standing subscription;
and any later re-run of the effect opens a fresh subscription, never the
old handle. -/
theorem feed_subscription_lifecycle :
    (∀ appId s, reachable appId s → ∀ sb, s.sub = some sb →
        s.db = true ∧ s.user ≠ none ∧ s.isAuthReady = true)
  ∧ (∀ appId s, (feedEffect appId s).sub ≠ none ↔
        (s.db = true ∧ s.user ≠ none ∧ s.isAuthReady = true))
  ∧ (∀ appId s, s.user ≠ none →
        (step appId s (Event.authStateChanged none)).sub = none)
  ∧ (∀ appId s sb evts, reachable appId s → s.sub = some sb →
        (feedEffect appId (run appId s evts)).sub ≠ some sb) := by
  refine ⟨fun appId s h => subInv_reachable appId s h, ?_, ?_, ?_⟩
  · intro appId s
    rw [feedEffect_sub]
    by_cases hc : s.db = true ∧ s.user ≠ none ∧ s.isAuthReady = true
    · simp [hc]
    · simp [hc]
  · intro appId s h
    rw [step_authStateChanged, if_neg (fun hc => h hc.1), feedEffect_sub,
      if_neg (fun hc => hc.2.1 rfl)]
  · intro appId s sb evts hreach hsub
    have h1 : sb.id < s.nextSubId := subIdInv_reachable appId s hreach sb hsub
    have h2 : s.nextSubId ≤ (run appId s evts).nextSubId :=
      run_nextSubId_le appId s evts
    rw [feedEffect_sub]
    split
    · intro hc
      have h3 : (⟨(run appId s evts).nextSubId,
          messagesQuery appId⟩ : Subscription) = sb :=
        Option.some.inj hc
      have h4 : sb.id = (run appId s evts).nextSubId := by rw [← h3]
      omega
    · exact fun hc => Option.noConfusion hc

/-- Witness for C5: `wState` is reachable with subscription 0 open; signing
out closes it, and a later effect re-run never returns handle 0 again. -/
theorem feed_subscription_lifecycle_witness :
    reachable "w-app" wState ∧ wState.sub = some subW ∧
    (wState.db = true ∧ wState.user ≠ none ∧ wState.isAuthReady = true) ∧
    wState.user ≠ none ∧
    (step "w-app" wState (Event.authStateChanged none)).sub = none ∧
    (feedEffect "w-app"
        (run "w-app" wState [Event.authStateChanged none,
          Event.authStateChanged (some "u1")])).sub ≠ some subW := by
  have hreach : reachable "w-app" wState :=
    ⟨[Event.init (Except.ok ()), Event.authStateChanged (some "u1"),
      Event.setDraft "hello"], rfl⟩
  have hsub : wState.sub = some subW := by decide
  have huser : wState.user ≠ none := by decide
  exact ⟨hreach, hsub,
    feed_subscription_lifecycle.1 "w-app" wState hreach subW hsub,
    huser,
    feed_subscription_lifecycle.2.2.1 "w-app" wState huser,
    feed_subscription_lifecycle.2.2.2 "w-app" wState subW
      [Event.authStateChanged none, Event.authStateChanged (some "u1")]
      hreach hsub⟩

/-- **C6**: after the feed subscription is unsubscribed at teardown, any
sequence of subsequently delivered snapshots leaves the component state,
and in particular the rendered message list, exactly as it was at
teardown (which itself preserves the list). -/
theorem teardown_then_deliveries_noop :
    ∀ appId s (ds : List (Nat × List Doc)),
      run appId (step appId s Event.unmount)
          (ds.map fun p => Event.snapshotDelivered p.1 p.2)
        = step appId s Event.unmount
      ∧ (step appId s Event.unmount).messages = s.messages :=
  fun appId s ds =>
    ⟨run_deliveries_noop appId (step appId s Event.unmount)
        (by rw [step_unmount]) ds,
      by rw [step_unmount]⟩

/-- **C7**: all three error kinds are caught where they arise and logged:
an initialization or sign-in failure only appends a log line and leaves
readiness untouched (readiness can only ever be set by an auth-state
callback, so after an auth-init failure with no callback the session stays
not-ready); a subscription error keeps the stale message list and the
subscription and, when the listener is current, appends a log line; an
append failure keeps the list and the draft and appends a log line.  Every
handler is a total state-to-state function: nothing propagates. -/
theorem errors_logged_and_contained :
    (∀ appId s msg, step appId s (Event.init (Except.error msg)) =
        { s with logs := s.logs ++
            ["Failed to initialize Firebase: " ++ msg] })
  ∧ (∀ appId s msg, step appId s (Event.authError msg) =
        { s with logs := s.logs ++
            ["Firebase authentication error: " ++ msg] })
  ∧ (∀ appId s e, (step appId s e).isAuthReady = true →
        s.isAuthReady = true ∨ ∃ u, e = Event.authStateChanged u)
  ∧ (∀ appId s i msg,
        (step appId s (Event.snapshotError i msg)).messages = s.messages
      ∧ (step appId s (Event.snapshotError i msg)).sub = s.sub)
  ∧ (∀ appId s sb msg, s.sub = some sb →
        step appId s (Event.snapshotError sb.id msg) =
          { s with logs := s.logs ++
              ["Error fetching messages: " ++ msg] })
  ∧ (∀ appId s uid msg, jsTrim s.newMessage ≠ "" → s.db = true →
        s.user = some uid →
        (step appId s (Event.submit (Except.error msg))).messages
            = s.messages
      ∧ (step appId s (Event.submit (Except.error msg))).newMessage
            = s.newMessage
      ∧ (step appId s (Event.submit (Except.error msg))).logs
            = s.logs ++ ["Error sending message: " ++ msg]) := by
  refine ⟨fun appId s msg => step_initError appId s msg,
    fun appId s msg => step_authError appId s msg, ?_,
    fun appId s i msg =>
      ⟨step_snapshotError_messages appId s i msg,
        step_snapshotError_sub appId s i msg⟩,
    fun appId s sb msg h => step_snapshotError_active appId s sb msg h, ?_⟩
  · intro appId s e h
    cases e with
    | authStateChanged u => exact Or.inr ⟨u, rfl⟩
    | init o =>
      rw [step_isAuthReady_eq_rawStep, rawStep_isAuthReady_of_not_auth
        appId s _ (by intro u hu; cases hu)] at h
      exact Or.inl h
    | authError m =>
      rw [step_isAuthReady_eq_rawStep, rawStep_isAuthReady_of_not_auth
        appId s _ (by intro u hu; cases hu)] at h
      exact Or.inl h
    | snapshotDelivered i docs =>
      rw [step_isAuthReady_eq_rawStep, rawStep_isAuthReady_of_not_auth
        appId s _ (by intro u hu; cases hu)] at h
      exact Or.inl h
    | snapshotError i m =>
      rw [step_isAuthReady_eq_rawStep, rawStep_isAuthReady_of_not_auth
        appId s _ (by intro u hu; cases hu)] at h
      exact Or.inl h
    | setDraft t =>
      rw [step_isAuthReady_eq_rawStep, rawStep_isAuthReady_of_not_auth
        appId s _ (by intro u hu; cases hu)] at h
      exact Or.inl h
    | submit o =>
      rw [step_isAuthReady_eq_rawStep, rawStep_isAuthReady_of_not_auth
        appId s _ (by intro u hu; cases hu)] at h
      exact Or.inl h
    | unmount =>
      rw [step_isAuthReady_eq_rawStep, rawStep_isAuthReady_of_not_auth
        appId s _ (by intro u hu; cases hu)] at h
      exact Or.inl h
  · intro appId s uid msg h1 h2 h3
    have heq := submit_failure_logs_and_keeps_draft appId s uid msg h1 h2 h3
    exact ⟨heq.2.2, heq.2.1, by rw [heq.1]⟩

/-- Witness for C7: at `wState`, a subscription error on the open listener
only logs and keeps the list; a rejected append keeps list and draft; and
the readiness disjunction holds at a concrete non-auth event. -/
theorem errors_logged_and_contained_witness :
    wState.sub = some subW ∧
    step "w-app" wState (Event.snapshotError subW.id "perm") =
      { wState with logs := wState.logs ++
          ["Error fetching messages: " ++ "perm"] } ∧
    (jsTrim wState.newMessage ≠ "" ∧ wState.db = true ∧
      wState.user = some "u1") ∧
    (step "w-app" wState (Event.submit (Except.error "perm"))).messages
      = wState.messages ∧
    (step "w-app" wState Event.unmount).isAuthReady = true ∧
    (wState.isAuthReady = true ∨
      ∃ u, Event.unmount = Event.authStateChanged u) :=
  ⟨by decide,
    errors_logged_and_contained.2.2.2.2.1 "w-app" wState subW "perm"
      (by decide),
    ⟨by decide, by decide, by decide⟩,
    (errors_logged_and_contained.2.2.2.2.2 "w-app" wState "u1" "perm"
      (by decide) (by decide) (by decide)).1,
    by decide,
    errors_logged_and_contained.2.2.1 "w-app" wState Event.unmount
      (by decide)⟩

/-- **C8**: a message whose sender id equals the viewer's uid renders
right-aligned with label `You`; any other message renders left-aligned with
label `User: ` followed by the first 8 characters of the sender id and
`...`; an empty list renders the placeholder, whose text begins with
`No messages yet`. -/
theorem presenter_distinguishes_self_from_others :
    (∀ uid m, m.userId = some uid →
        renderMsg (some uid) m =
          { align := Align.right, name := Except.ok "You",
            timeShown := m.timestamp })
  ∧ (∀ uid sid m, m.userId = some sid → sid ≠ uid →
        renderMsg (some uid) m =
          { align := Align.left,
            name := Except.ok ("User: " ++ sid.take 8 ++ "..."),
            timeShown := m.timestamp })
  ∧ (∀ uid, renderMessages uid [] = RenderedList.placeholder emptyPlaceholder)
  ∧ (∃ r, emptyPlaceholder = "No messages yet" ++ r)
  ∧ (∀ uid msgs, msgs ≠ [] →
        renderMessages uid msgs =
          RenderedList.items (msgs.map (renderMsg uid))) := by
  refine ⟨fun uid m h => renderMsg_self uid m h,
    fun uid sid m h h2 => renderMsg_other uid sid m h h2,
    fun uid => rfl, ⟨". Start chatting!", rfl⟩, ?_⟩
  intro uid msgs h
  unfold renderMessages
  rw [if_neg (by simpa using h)]

/-- Witness for C8: viewer `u1` sees their own message right-aligned as
`You`; viewer `u2` sees the same message left-aligned as `User: u1...`. -/
theorem presenter_distinguishes_self_from_others_witness :
    (⟨"m1", "hello", some "u1", some 5⟩ : Message).userId = some "u1" ∧
    renderMsg (some "u1") ⟨"m1", "hello", some "u1", some 5⟩ =
      { align := Align.right, name := Except.ok "You",
        timeShown := some 5 } ∧
    ("u1" : String) ≠ "u2" ∧
    renderMsg (some "u2") ⟨"m1", "hello", some "u1", some 5⟩ =
      { align := Align.left,
        name := Except.ok ("User: " ++ ("u1" : String).take 8 ++ "..."),
        timeShown := some 5 } ∧
    renderMessages (some "u1") [] =
      RenderedList.placeholder emptyPlaceholder :=
  ⟨rfl,
    presenter_distinguishes_self_from_others.1 "u1"
      ⟨"m1", "hello", some "u1", some 5⟩ rfl,
    by decide,
    presenter_distinguishes_self_from_others.2.1 "u2" "u1"
      ⟨"m1", "hello", some "u1", some 5⟩ rfl (by decide),
    presenter_distinguishes_self_from_others.2.2.1 (some "u1")⟩

/-- **C9**: auth readiness starts false, is set to true by every auth-state
callback, and no step ever resets it; readiness can only arise from an
auth-state callback; the loading screen shows exactly while readiness is
false, hence only before the first callback, and never returns after one —
in particular not on sign-out. -/
theorem auth_readiness_monotone :
    initState.isAuthReady = false
  ∧ rendersLoading initState = true
  ∧ (∀ appId s u,
      (step appId s (Event.authStateChanged u)).isAuthReady = true)
  ∧ (∀ appId s e, s.isAuthReady = true →
      (step appId s e).isAuthReady = true)
  ∧ (∀ appId evts, (run appId initState evts).isAuthReady = true →
      ∃ u, Event.authStateChanged u ∈ evts)
  ∧ (∀ appId s u evts,
      rendersLoading
        (run appId (step appId s (Event.authStateChanged u)) evts) = false)
  ∧ (∀ s, rendersLoading s = !s.isAuthReady) := by
  refine ⟨rfl, rfl, fun appId s u => step_isAuthReady_auth appId s u,
    fun appId s e h => step_isAuthReady_mono appId s e h, ?_, ?_,
    fun s => rfl⟩
  · intro appId evts h
    by_contra hc
    push_neg at hc
    rw [run_isAuthReady_of_no_auth appId initState evts hc] at h
    simp [initState] at h
  · intro appId s u evts
    have h : (run appId (step appId s (Event.authStateChanged u))
        evts).isAuthReady = true :=
      run_isAuthReady_mono appId _ evts (step_isAuthReady_auth appId s u)
    simp [rendersLoading, h]

/-- Witness for C9: after the concrete sign-in trace, readiness is true and
the only explanation is the auth callback it contains; monotonicity applied
at `wState` with a sign-out callback keeps readiness true. -/
theorem auth_readiness_monotone_witness :
    wState.isAuthReady = true ∧
    (step "w-app" wState (Event.authStateChanged none)).isAuthReady = true ∧
    (run "w-app" initState [Event.init (Except.ok ()),
        Event.authStateChanged (some "u1")]).isAuthReady = true ∧
    (∃ u, Event.authStateChanged u ∈
      [Event.init (Except.ok ()), Event.authStateChanged (some "u1")]) ∧
    rendersLoading
      (run "w-app" (step "w-app" wState (Event.authStateChanged none)) [])
      = false :=
  ⟨by decide,
    auth_readiness_monotone.2.2.2.1 "w-app" wState
      (Event.authStateChanged none) (by decide),
    by decide,
    auth_readiness_monotone.2.2.2.2.1 "w-app"
      [Event.init (Except.ok ()), Event.authStateChanged (some "u1")]
      (by decide),
    auth_readiness_monotone.2.2.2.2.2.1 "w-app" wState none []⟩

/-- **C10** counterexample: the claim says rendering the label of *any*
message with an undefined `userId` throws; but when the viewer is signed
out (`user` null, so `user?.uid` is `undefined`), JavaScript's
`undefined === undefined` comparison takes the `'You'` branch and no
`substring` call happens: the message `mU` renders fine. -/
theorem undefined_sender_renders_for_null_viewer :
    renderMsg none mU =
      { align := Align.right, name := Except.ok "You", timeShown := none }
    ∧ (renderMsg none mU).name ≠ Except.error substrUndefErr :=
  ⟨rfl, fun h => Except.noConfusion h⟩

/-- **C10** (amended): the presenter is total over messages with an absent
timestamp (the time suffix is just omitted); a message with an undefined
`userId` throws the `substring` `TypeError` exactly when the viewer's uid
is defined (a signed-in user) — when the viewer is also null the message
instead renders as self (`You`). -/
theorem presenter_throws_on_undefined_sender_iff_viewer_defined :
    (∀ uid m, m.timestamp = none → (renderMsg uid m).timeShown = none)
  ∧ (∀ uid m t, m.timestamp = some t → (renderMsg uid m).timeShown = some t)
  ∧ (∀ uid m, m.userId = none →
        (renderMsg (some uid) m).name = Except.error substrUndefErr)
  ∧ (∀ m, m.userId = none → (renderMsg none m).name = Except.ok "You") := by
  refine ⟨?_, ?_, ?_, ?_⟩
  · intro uid m h
    rw [renderMsg_timeShown, h]
  · intro uid m t h
    rw [renderMsg_timeShown, h]
  · intro uid m h
    rw [renderMsg_undef_viewer_some uid m h]
  · intro m h
    rw [renderMsg_undef_viewer_none m h]

/-- Witness for the amended C10 at the concrete message `mU` and viewer
`u1`. -/
theorem presenter_throws_on_undefined_sender_witness :
    mU.timestamp = none ∧ (renderMsg (some "u1") mU).timeShown = none ∧
    mU.userId = none ∧
    (renderMsg (some "u1") mU).name = Except.error substrUndefErr :=
  ⟨rfl,
    presenter_throws_on_undefined_sender_iff_viewer_defined.1
      (some "u1") mU rfl,
    rfl,
    presenter_throws_on_undefined_sender_iff_viewer_defined.2.2.1
      "u1" mU rfl⟩

end Chat
